import Mathlib

/-
  Verification of the TikTok downloader service (FastAPI variant, src/app.py).

  Modelling conventions:
  * Python strings are embedded as Lean String / List Char; the string
    operations used by the code (the "in" operator, str.split with a
    one-character separator, str.replace, str.lower, int()) are defined
    below over List Char.  Character classes (\d, \w, alphanumerics,
    lower-casing) are modelled over the ASCII range.
  * Dynamic Python values flowing out of json.loads / response.json() are
    embedded as the inductive type Json; an obj models an already-parsed
    dict, so its keys are distinct and lookup is dict access.
  * Python exceptions raised by value operations are Except PyErr results;
    a raised-and-caught exception corresponds to an error value consumed
    by the enclosing handler.
  * Every outbound HTTP call is resolved against a World record holding
    the (possibly failing) transport result of each call the handler can
    make, and each function additionally returns the trace of calls it
    performed, so that "no outbound call is made" is a statement about
    the trace.  The pydantic HttpUrl layer and the HTTP framework are
    external collaborators and are outside the model, as in the spec.
-/

inductive PyErr where
  | typeError
  | keyError
  | indexError
  | attributeError
  | valueError
deriving DecidableEq, Repr

inductive TransportError where
  | timeout
  | connectionError
deriving DecidableEq, Repr

/-- Dynamic values produced by json.loads / response.json(). -/
inductive Json where
  | null
  | bool (b : Bool)
  | num (n : Int)
  | str (s : String)
  | arr (elems : List Json)
  | obj (kvs : List (String × Json))

/-- Dict lookup on the key-value list of a parsed JSON object. -/
def lookupKey (kvs : List (String × Json)) (k : String) : Option Json :=
  match kvs with
  | [] => none
  | (k2, v) :: rest => if k2 = k then some v else lookupKey rest k

/-- Python equality test of a dynamic value against a string: only equal
strings compare equal; any other runtime type compares unequal. -/
def jsonEqStr (k : String) (j : Json) : Bool :=
  match j with
  | .str s => s == k
  | _ => false

/-- p is a literal prefix of l; on success return the remainder. -/
def dropPref : List Char → List Char → Option (List Char)
  | [], cs => some cs
  | _ :: _, [] => none
  | p :: ps, c :: cs => if p = c then dropPref ps cs else none

/-- The Python substring test pat in s over character lists. -/
def containsSub (pat : List Char) : List Char → Bool
  | [] => decide (pat = [])
  | c :: cs => (dropPref pat (c :: cs)).isSome || containsSub pat cs

/-- Python str.split(sep) with a one-character separator. -/
def splitCh (c : Char) : List Char → List (List Char)
  | [] => [[]]
  | x :: xs =>
    let r := splitCh c xs
    if x = c then [] :: r
    else (x :: r.headD []) :: r.tail

/-- Python s.replace with the fixed two-character pattern PT and empty
replacement: scan left to right, deleting each occurrence of PT. -/
def replacePT : List Char → List Char
  | [] => []
  | [c] => [c]
  | c1 :: c2 :: rest =>
    if c1 = 'P' ∧ c2 = 'T' then replacePT rest
    else c1 :: replacePT (c2 :: rest)

/-- Numeric value of a digit string. -/
def digitsNat (l : List Char) : Nat :=
  l.foldl (fun a c => a * 10 + (c.toNat - ('0').toNat)) 0

/-- int() on a string of digits: defined (some) only when nonempty and
all digits. -/
def unsignedInt (l : List Char) : Option Nat :=
  if l ≠ [] ∧ l.all Char.isDigit then some (digitsNat l) else none

/-- Python int(str) restricted to an optional sign followed by ASCII
digits; other accepted Python forms (surrounding whitespace, underscore
separators) are outside the model.  none models a raised ValueError. -/
def pyIntL (l : List Char) : Option Int :=
  match l with
  | [] => none
  | c :: ds =>
    if c = '-' then (unsignedInt ds).map (fun n => -(n : Int))
    else if c = '+' then (unsignedInt ds).map (fun n => (n : Int))
    else (unsignedInt (c :: ds)).map (fun n => (n : Int))

/-- The Python membership test k in j on a dynamic value: key test on a
dict, element test on a list, substring test on a string, TypeError on
the remaining runtime types. -/
def pyMemberKey (k : String) (j : Json) : Except PyErr Bool :=
  match j with
  | .obj kvs => .ok (kvs.any (fun p => p.1 == k))
  | .arr es => .ok (es.any (jsonEqStr k))
  | .str s => .ok (containsSub k.toList s.toList)
  | _ => .error .typeError

/-- The Python indexing j[k] with a string key: dict lookup (KeyError when
absent), TypeError on any other runtime type. -/
def pyIndexKey (k : String) (j : Json) : Except PyErr Json :=
  match j with
  | .obj kvs =>
    match lookupKey kvs k with
    | some v => .ok v
    | none => .error .keyError
  | _ => .error .typeError

/-- The Python j.get(k, d): defined on dicts, AttributeError otherwise. -/
def pyDictGetD (j : Json) (k : String) (d : Json) : Except PyErr Json :=
  match j with
  | .obj kvs => .ok ((lookupKey kvs k).getD d)
  | _ => .error .attributeError

/-- Outbound HTTP calls the handler can perform (src/app.py lines 110,
129, 227, 244). -/
inductive NetCall where
  | resolveRedirect (url : String)
  | fetchPage (url : String)
  | ssstikPost (url : String)
  | tikmateLookup (url : String)
deriving DecidableEq, Repr

def NetCall.isResolverCall : NetCall → Bool
  | .ssstikPost _ => true
  | .tikmateLookup _ => true
  | _ => false

/-- The TikTok page response: HTTP status and the json.loads results of
its application/ld+json script blocks (none models a parse failure). -/
structure Page where
  status : Nat
  ldJsonScripts : List (Option Json)

/-- An anchor element selected by soup.select with the download class:
its visible text and its optional href attribute. -/
structure Anchor where
  text : String
  href : Option String
deriving DecidableEq, Repr

/-- The ssstik.io response: HTTP status and the parsed download anchors. -/
structure SsstikResp where
  status : Nat
  anchors : List Anchor

/-- The tikmate lookup response: HTTP status and the response.json()
result (none models a JSON decode exception). -/
structure TikmateResp where
  status : Nat
  jsonBody : Option Json

/-- The transport results of the four outbound calls for one request. -/
structure World where
  resolveResult : Except TransportError String
  pageFetch : Except TransportError Page
  ssstik : Except TransportError SsstikResp
  tikmate : Except TransportError TikmateResp

/-- Extracted metadata (src/app.py lines 160-183); fields hold dynamic
values since the source copies JSON values into them unchecked. -/
structure Metadata where
  title : Json
  author : Json
  cover : Json
  duration : Int

/-- The video_data dict built at src/app.py lines 197-204. -/
structure VideoData where
  video_url : Json
  author : Json
  title : Json
  cover : Json
  duration : Int
  download_url : Json

/-- The DownloadResponse model (src/app.py lines 44-51); audio_url
defaults to none and the dict built by the handler never sets it. -/
structure DownloadResponse where
  video_url : Json
  audio_url : Option Json
  author : Json
  title : Json
  cover : Json
  duration : Int
  download_url : Json

def toDownloadResponse (v : VideoData) : DownloadResponse :=
  { video_url := v.video_url
    audio_url := none
    author := v.author
    title := v.title
    cover := v.cover
    duration := v.duration
    download_url := v.download_url }

/-- Endpoint outcome: a 200 body, or an HTTPException with status,
error code and message. -/
inductive EndpointResult where
  | success (resp : DownloadResponse)
  | httpError (status : Nat) (error message : String)

/- ===== URL validation (src/app.py line 75) ===== -/

/-- The character class of a word character, dot or dash, as used by the
handle part of the validation regex (ASCII range of Python \w). -/
def isWordDotDash (c : Char) : Bool :=
  c.isAlphanum || c = '_' || c = '.' || c = '-'

/-- Suffix of the regex after the handle run: a literal /video/ followed
by at least one digit (the match is unanchored at the right). -/
def videoPart (cs : List Char) : Bool :=
  match dropPref (("/video/").toList) cs with
  | some (c :: _) => c.isDigit
  | _ => false

/-- Consume the rest of the handle run, then require the /video/ part.
The run cannot contain a slash, so backtracking inside the regex cannot
move the /video/ literal earlier than the first non-class character. -/
def handleRest : List Char → Bool
  | [] => false
  | c :: cs => if isWordDotDash c then handleRest cs else videoPart (c :: cs)

/-- The handle-and-video alternative after the host prefix. -/
def matchHandleVideo : List Char → Bool
  | [] => false
  | c :: rest => isWordDotDash c && handleRest rest

/-- First alternative of the regex after the scheme: the shortened host
followed by at least one alphanumeric token character (the optional
trailing slash and anything after it are unconstrained because the match
is unanchored at the right). -/
def matchAlt1 (cs : List Char) : Bool :=
  match dropPref (("vm.tiktok.com/").toList) cs with
  | some (c :: _) => c.isAlphanum
  | _ => false

/-- Second alternative of the regex after the scheme. -/
def matchAlt2 (cs : List Char) : Bool :=
  (match dropPref (("www.tiktok.com/@").toList) cs with
   | some r => matchHandleVideo r
   | none => false) ||
  (match dropPref (("tiktok.com/@").toList) cs with
   | some r => matchHandleVideo r
   | none => false)

/-- re.match of the validation regex of src/app.py line 75: anchored at
the start of the string only. -/
def validTikTokUrl (url : String) : Bool :=
  (match dropPref (("https://").toList) url.toList with
   | some r => matchAlt1 r || matchAlt2 r
   | none => false) ||
  (match dropPref (("http://").toList) url.toList with
   | some r => matchAlt1 r || matchAlt2 r
   | none => false)

/- ===== Video id extraction (src/app.py lines 132-141) ===== -/

def takeDigits : List Char → List Char
  | [] => []
  | c :: cs => if c.isDigit then c :: takeDigits cs else []

/-- re.search for /video/ followed by a maximal nonempty digit run:
first position where the whole pattern matches. -/
def searchVideoId : List Char → Option (List Char)
  | [] => none
  | c :: cs =>
    match dropPref (("/video/").toList) (c :: cs) with
    | some rest =>
      let ds := takeDigits rest
      if ds.isEmpty then searchVideoId cs else some ds
    | none => searchVideoId cs

/-- Lines 132-141: the id is extracted only when /video/ occurs in the
url and the search finds a digit group. -/
def videoIdOf (url : String) : Option String :=
  if containsSub (("/video/").toList) url.toList then
    (searchVideoId url.toList).map (fun l => ⟨l⟩)
  else none

/- ===== JSON-LD selection and metadata (src/app.py lines 146-183) ===== -/

/-- A parsed script block is selected when it is a dict whose @type key
equals the VideoObject string; for every other parse result the loop
body either takes the false branch or raises inside the per-script
handler and continues, so the block is skipped either way. -/
def isVideoObject (j : Json) : Bool :=
  match j with
  | .obj kvs =>
    match lookupKey kvs ("@type") with
    | some v => jsonEqStr ("VideoObject") v
    | none => false
  | _ => false

/-- Lines 147-157: first script block that parses and is a VideoObject. -/
def findVideoObject (scripts : List (Option Json)) : Option Json :=
  (scripts.filterMap id).find? isVideoObject

/-- Line 167: json_ld.get of the author key with an empty-dict default,
then .get of the name key with the default author string. -/
def extractAuthorPair (j : Json) : Except PyErr Json :=
  match pyDictGetD j ("author") (.obj []) with
  | .error e => .error e
  | .ok a => pyDictGetD a ("name") (.str ("TikTok User"))

/-- Line 168: the thumbnail field, first element when it is a list
(IndexError when the list is empty), the value itself otherwise. -/
def coverOf (j : Json) : Except PyErr Json :=
  match pyDictGetD j ("thumbnailUrl") (.str ("")) with
  | .error e => .error e
  | .ok tv =>
    match tv with
    | .arr [] => .error .indexError
    | .arr (x :: _) => .ok x
    | v => .ok v

/-- Lines 180-183: the seconds component and the final total. -/
def secondsPart (minutes : Int) (ds1 : List Char) : Except PyErr Int :=
  if containsSub ['S'] ds1 then
    match pyIntL ((splitCh 'S' ds1).getD 0 []) with
    | none => Except.error PyErr.valueError
    | some s => Except.ok (minutes * 60 + s)
  else Except.ok (minutes * 60 + 0)

/-- Lines 173-183: strip PT, take the segment before the first M as the
minutes (reassigning the working string to the following segment), then
the segment before the first S of the working string as the seconds. -/
def parsePT (l : List Char) : Except PyErr Int :=
  let ds0 := replacePT l
  if containsSub ['M'] ds0 then
    match pyIntL ((splitCh 'M' ds0).getD 0 []) with
    | none => Except.error PyErr.valueError
    | some m => secondsPart m ((splitCh 'M' ds0).getD 1 [])
  else secondsPart 0 ds0

/-- Lines 170-183: the duration stays at the default 30 unless the
selected block has a duration key whose value contains PT. -/
def computeDuration (j : Json) : Except PyErr Int :=
  match pyMemberKey ("duration") j with
  | .error e => .error e
  | .ok false => .ok 30
  | .ok true =>
    match pyIndexKey ("duration") j with
    | .error e => .error e
    | .ok iso =>
      match pyMemberKey ("PT") iso with
      | .error e => .error e
      | .ok false => .ok 30
      | .ok true =>
        match iso with
        | .str s => parsePT s.toList
        | _ => .error .attributeError

def defaultMetadata : Metadata :=
  ⟨.str ("TikTok Video"), .str ("TikTok User"), .str (""), 30⟩

/-- Lines 160-183: defaults when no block was selected, otherwise the
field extractions in source order; a raised exception aborts the whole
metadata step (it is caught only by the outer handler of
extract_video_data_real). -/
def extractMetadata : Option Json → Except PyErr Metadata
  | none => .ok defaultMetadata
  | some j =>
    match pyDictGetD j ("name") (.str ("TikTok Video")) with
    | .error e => .error e
    | .ok title =>
      match extractAuthorPair j with
      | .error e => .error e
      | .ok author =>
        match coverOf j with
        | .error e => .error e
        | .ok cover =>
          match computeDuration j with
          | .error e => .error e
          | .ok dur => .ok ⟨title, author, cover, dur⟩

/- ===== Watermark-free resolver (src/app.py lines 212-257) ===== -/

/-- Line 234: anchor text, lower-cased, must contain the phrase. -/
def anchorMatches (a : Anchor) : Bool :=
  containsSub (("without watermark").toList) (a.text.toList.map Char.toLower)

/-- Lines 233-235: the loop returns on the first matching anchor. -/
def firstWatermarkAnchor (links : List Anchor) : Option Anchor :=
  links.find? anchorMatches

/-- Line 253: the synthesized CDN url with the id substituted. -/
def fallbackUrl (video_id : String) : String :=
  ("https://api16-normal-c-useast1a.tiktokv.com/aweme/v1/play/?video_id=")
    ++ video_id ++ ("&line=0&is_play_url=1&source=PackSourceEnum_FEED")

/-- Lines 238-253: the second strategy and the final fallback.  Every
path here has already performed the ssstik call, so the trace carries
both calls.  A transport error, a JSON decode error, a membership
TypeError or an indexing error is caught by the single function-level
handler of get_no_watermark_url, which returns None. -/
def tikmateStep (w : World) (url video_id : String) : Option Json × List NetCall :=
  match w.tikmate with
  | .error _ => (none, [.ssstikPost url, .tikmateLookup url])
  | .ok t =>
    if t.status = 200 then
      match t.jsonBody with
      | none => (none, [.ssstikPost url, .tikmateLookup url])
      | some d =>
        match pyMemberKey ("videoUrl") d with
        | .error _ => (none, [.ssstikPost url, .tikmateLookup url])
        | .ok true =>
          match pyIndexKey ("videoUrl") d with
          | .error _ => (none, [.ssstikPost url, .tikmateLookup url])
          | .ok v => (some v, [.ssstikPost url, .tikmateLookup url])
        | .ok false => (some (.str (fallbackUrl video_id)), [.ssstikPost url, .tikmateLookup url])
    else (some (.str (fallbackUrl video_id)), [.ssstikPost url, .tikmateLookup url])

/-- Lines 212-257.  One try/except surrounds all three strategies, so a
transport exception in either outbound call (or a raised KeyError on a
matching anchor without href) makes the whole function return None; only
exception-free failures fall through to the next strategy. -/
def get_no_watermark_url (w : World) (url video_id : String) : Option Json × List NetCall :=
  match w.ssstik with
  | .error _ => (none, [.ssstikPost url])
  | .ok resp =>
    if resp.status = 200 then
      match firstWatermarkAnchor resp.anchors with
      | some link =>
        match link.href with
        | some h => (some (.str h), [.ssstikPost url])
        | none => (none, [.ssstikPost url])
      | none => tikmateStep w url video_id
    else tikmateStep w url video_id

/- ===== Page extraction and endpoint (src/app.py lines 62-210) ===== -/

/-- httpx raise_for_status: an exception unless the status is a 2xx. -/
def statusOk (s : Nat) : Bool :=
  200 ≤ s && s < 300

/-- Lines 116-210: fetch the page, extract the id, select the JSON-LD
block, extract metadata, then resolve the watermark-free url; any raised
exception or missing value yields None (surfaced as 404). -/
def extract_video_data_real (w : World) (url : String) : Option VideoData × List NetCall :=
  match w.pageFetch with
  | .error _ => (none, [.fetchPage url])
  | .ok page =>
    if statusOk page.status then
      match videoIdOf url with
      | none => (none, [.fetchPage url])
      | some vid =>
        match extractMetadata (findVideoObject page.ldJsonScripts) with
        | .error _ => (none, [.fetchPage url])
        | .ok meta =>
          match get_no_watermark_url w url vid with
          | (none, t) => (none, .fetchPage url :: t)
          | (some u, t) =>
            (some { video_url := u
                    author := meta.author
                    title := meta.title
                    cover := meta.cover
                    duration := meta.duration
                    download_url := u },
             .fetchPage url :: t)
    else (none, [.fetchPage url])

/-- Lines 106-114: follow redirects; on any failure return the original
url unchanged. -/
def resolve_shortened_url (w : World) (url : String) : String × List NetCall :=
  match w.resolveResult with
  | .ok finalUrl => (finalUrl, [.resolveRedirect url])
  | .error _ => (url, [.resolveRedirect url])

/-- Lines 82-84: the redirect resolution runs only for urls containing
the shortened host. -/
def urlAfterRedirect (w : World) (url : String) : String × List NetCall :=
  if containsSub (("vm.tiktok.com").toList) url.toList then
    resolve_shortened_url w url
  else (url, [])

/-- Lines 87-95: the post-validation continuation of the endpoint. -/
def finishDownload (w : World) (url1 : String) : EndpointResult × List NetCall :=
  match extract_video_data_real w url1 with
  | (none, t) => (.httpError 404 ("video_not_found") ("Video not found or is private"), t)
  | (some vd, t) => (.success (toDownloadResponse vd), t)

/-- Lines 62-104: the /api/download handler on the submitted url string. -/
def download_video (w : World) (url : String) : EndpointResult × List NetCall :=
  if validTikTokUrl url then
    ((finishDownload w (urlAfterRedirect w url).1).1,
      (urlAfterRedirect w url).2 ++ (finishDownload w (urlAfterRedirect w url).1).2)
  else (.httpError 400 ("invalid_url") ("Invalid TikTok URL format"), [])

/-- The ssstik strategy ends without a URL and without raising: a
non-200 status, or a 200 body with no matching anchor. -/
def ssstikYieldsNothing (r : SsstikResp) : Prop :=
  r.status ≠ 200 ∨ firstWatermarkAnchor r.anchors = none

/-- The tikmate strategy ends without a URL and without raising: a
non-200 status, or a 200 body whose JSON parses and has no videoUrl
key. -/
def tikmateYieldsNothing (t : TikmateResp) : Prop :=
  t.status ≠ 200 ∨ ∃ d, t.jsonBody = some d ∧ pyMemberKey ("videoUrl") d = .ok false

/- ===== Spec-side definition for the refinement check of C3 ===== -/

/-- Anchored form of the first accepted shape, following the spec's
words: the shortened host, a nonempty alphanumeric token, an optional
single trailing slash, and nothing after it. -/
def fullAlt1 (cs : List Char) : Bool :=
  match dropPref (("vm.tiktok.com/").toList) cs with
  | some r =>
    let tok := r.takeWhile Char.isAlphanum
    let rest := r.dropWhile Char.isAlphanum
    decide (tok ≠ []) && (decide (rest = []) || decide (rest = ['/']))
  | none => false

/-- Anchored form of the second accepted shape, following the spec's
words: optional www, the host, a nonempty handle, a /video/ segment and
a nonempty numeric id reaching the end of the string. -/
def fullAlt2 (cs : List Char) : Bool :=
  let hv : List Char → Bool := fun r =>
    let run := r.takeWhile isWordDotDash
    let rest := r.dropWhile isWordDotDash
    decide (run ≠ []) &&
      (match dropPref (("/video/").toList) rest with
       | some ds => decide (ds ≠ []) && ds.all Char.isDigit
       | none => false)
  (match dropPref (("www.tiktok.com/@").toList) cs with
   | some r => hv r
   | none => false) ||
  (match dropPref (("tiktok.com/@").toList) cs with
   | some r => hv r
   | none => false)

/-- Spec-side matcher of the two accepted URL shapes read as full-string
(anchored) patterns, to be compared against the source's validTikTokUrl,
which is anchored at the start only. -/
def specShapeMatch (url : String) : Bool :=
  (match dropPref (("https://").toList) url.toList with
   | some r => fullAlt1 r || fullAlt2 r
   | none => false) ||
  (match dropPref (("http://").toList) url.toList with
   | some r => fullAlt1 r || fullAlt2 r
   | none => false)

/- ===== Concrete worlds used by witnesses and counterexamples ===== -/

/-- The ssstik call raises a transport exception while the tikmate call
would answer 200 with a videoUrl field. -/
def wSsstikRaises : World :=
  { resolveResult := .error .timeout
    pageFetch := .error .timeout
    ssstik := .error .timeout
    tikmate := .ok ⟨200, some (.obj [(("videoUrl"), .str ("https://cdn.example/v.mp4"))])⟩ }

/-- The ssstik call answers a non-200 status and the tikmate call raises
a transport exception. -/
def wSsstikBadTikmateRaises : World :=
  { resolveResult := .error .timeout
    pageFetch := .error .timeout
    ssstik := .ok ⟨404, []⟩
    tikmate := .error .timeout }

/-- Every outbound call raises. -/
def wNoNet : World :=
  { resolveResult := .error .timeout
    pageFetch := .error .timeout
    ssstik := .error .timeout
    tikmate := .error .timeout }

/-- The page fetch succeeds with no structured data and both
watermark-free strategies answer non-200 without raising. -/
def wFallback : World :=
  { resolveResult := .error .timeout
    pageFetch := .ok ⟨200, []⟩
    ssstik := .ok ⟨500, []⟩
    tikmate := .ok ⟨500, none⟩ }

/-- Redirect resolution succeeds but lands on a page URL without a
/video/ segment; the page fetch succeeds. -/
def wPhotoRedirect : World :=
  { resolveResult := .ok ("https://www.tiktok.com/@u/photo/9")
    pageFetch := .ok ⟨200, []⟩
    ssstik := .error .timeout
    tikmate := .error .timeout }

/-- Redirect resolution raises a transport error. -/
def wRedirectRaises : World :=
  { resolveResult := .error .connectionError
    pageFetch := .error .timeout
    ssstik := .error .timeout
    tikmate := .error .timeout }

/-- The page fetch succeeds and the ssstik strategy answers 200 with a
matching watermark-free anchor. -/
def wSsstikAnchor : World :=
  { resolveResult := .error .timeout
    pageFetch := .ok ⟨200, []⟩
    ssstik := .ok ⟨200, [⟨("Without Watermark HD"), some ("https://cdn.example/clean.mp4")⟩]⟩
    tikmate := .error .timeout }

/-- The selected VideoObject block whose thumbnail field is an empty
list. -/
def kvsEmptyThumb : List (String × Json) :=
  [(("@type"), .str ("VideoObject")), (("thumbnailUrl"), .arr [])]

/-- The page fetch succeeds and the structured data holds a VideoObject
with an empty thumbnail list. -/
def wEmptyThumb : World :=
  { resolveResult := .error .timeout
    pageFetch := .ok ⟨200, [some (.obj kvsEmptyThumb)]⟩
    ssstik := .error .timeout
    tikmate := .error .timeout }

example : validTikTokUrl ("https://www.tiktok.com/@user.name/video/724") = true := by decide
example : validTikTokUrl ("https://vm.tiktok.com/ZMabc123/") = true := by decide
example : validTikTokUrl ("https://tiktok.com/@u/video/x") = false := by decide
example : validTikTokUrl ("ftp://vm.tiktok.com/abc") = false := by decide
example : videoIdOf ("https://www.tiktok.com/@u/video/724?x=1") = some ("724") := by decide
example : videoIdOf ("https://www.tiktok.com/@u/videos/724") = none := by decide
example : parsePT (("PT1M30S").toList) = .ok 90 := rfl
example : parsePT (("PT45S").toList) = .ok 45 := rfl
example : parsePT (("PT2M").toList) = .ok 120 := rfl

/- ===== Helper lemmas ===== -/

theorem resolve_trace (w : World) (url : String) :
    (resolve_shortened_url w url).2 = [.resolveRedirect url] := by
  cases hres : w.resolveResult <;> simp [resolve_shortened_url, hres]

theorem finish_not_400 (w : World) (u1 : String) (e m : String) :
    (finishDownload w u1).1 ≠ .httpError 400 e m := by
  unfold finishDownload
  split <;> simp

theorem extract_keeps_urls_equal (w : World) (u1 : String) (vd : VideoData)
    (h : (extract_video_data_real w u1).1 = some vd) :
    vd.download_url = vd.video_url := by
  unfold extract_video_data_real at h
  split at h
  · simp at h
  · split at h
    · split at h
      · simp at h
      · split at h
        · simp at h
        · split at h
          · simp at h
          · simp at h
            subst h
            rfl
    · simp at h

/- ===== C1 ===== -/

/-- C1 counterexample: with the ssstik call raising a transport
exception, get_no_watermark_url returns no URL and its call trace shows
the tikmate strategy was never attempted, even though that strategy
would have succeeded; the claimed proceed-to-the-next-strategy behavior
therefore fails at this input. -/
theorem C1_counterexample :
    get_no_watermark_url wSsstikRaises ("https://www.tiktok.com/@u/video/7") ("7") =
      (none, [.ssstikPost ("https://www.tiktok.com/@u/video/7")]) ∧
    (tikmateStep wSsstikRaises ("https://www.tiktok.com/@u/video/7") ("7")).1 =
      some (.str ("https://cdn.example/v.mp4")) :=
  ⟨rfl, rfl⟩

/-- C1 amended: a transport exception in the ssstik or tikmate call is
caught only by the single function-level handler of
get_no_watermark_url, which ends the whole resolution with no URL
instead of proceeding to the next strategy. -/
theorem C1_exception_aborts_resolution (w : World) (url vid : String) :
    (∀ e, w.ssstik = .error e →
      get_no_watermark_url w url vid = (none, [.ssstikPost url])) ∧
    (∀ e r, w.ssstik = .ok r → r.status ≠ 200 → w.tikmate = .error e →
      get_no_watermark_url w url vid = (none, [.ssstikPost url, .tikmateLookup url])) := by
  constructor
  · intro e he
    simp [get_no_watermark_url, he]
  · intro e r hr h200 ht
    simp [get_no_watermark_url, hr, h200, tikmateStep, ht]

/-- C1 witness: the amended statement evaluated at a concrete world
where ssstik answers 404 and tikmate raises. -/
theorem C1_witness :
    get_no_watermark_url wSsstikBadTikmateRaises ("u") ("7") =
      (none, [.ssstikPost ("u"), .tikmateLookup ("u")]) :=
  (C1_exception_aborts_resolution wSsstikBadTikmateRaises ("u") ("7")).2
    .timeout ⟨404, []⟩ rfl (by decide) rfl

/- ===== C6 ===== -/

/-- C6: when no script block parses to a VideoObject, the extracted
metadata is exactly the documented defaults: title TikTok Video, author
TikTok User, empty cover, duration 30. -/
theorem C6_no_videoobject_defaults (scripts : List (Option Json))
    (h : ∀ j, some j ∈ scripts → isVideoObject j = false) :
    extractMetadata (findVideoObject scripts) = .ok defaultMetadata := by
  have hfind : findVideoObject scripts = none := by
    unfold findVideoObject
    apply List.find?_eq_none.mpr
    intro x hx
    rcases List.mem_filterMap.mp hx with ⟨a, ha, hax⟩
    cases a with
    | none => cases hax
    | some b =>
      cases hax
      simp [h x ha]
  rw [hfind]
  rfl

/-- C6 witness: a page whose script blocks are one parse failure and one
non-VideoObject block yields the default metadata. -/
theorem C6_witness :
    extractMetadata (findVideoObject [none, some (.obj [(("@type"), .str ("Article"))])]) =
      .ok defaultMetadata :=
  C6_no_videoobject_defaults _ (by
    intro j hj
    simp at hj
    subst hj
    rfl)

/- ===== C7 ===== -/

/-- C7: when redirect resolution raises, resolve_shortened_url returns
the original URL unchanged, and for a valid shortened URL the endpoint
then proceeds through the rest of the pipeline with that original URL. -/
theorem C7_redirect_failure_uses_original (w : World) (url : String) (e : TransportError)
    (h : w.resolveResult = .error e) :
    (resolve_shortened_url w url).1 = url ∧
    (validTikTokUrl url = true →
      containsSub (("vm.tiktok.com").toList) url.toList = true →
      download_video w url =
        ((finishDownload w url).1, .resolveRedirect url :: (finishDownload w url).2)) := by
  constructor
  · simp [resolve_shortened_url, h]
  · intro hv hvm
    have hafter : urlAfterRedirect w url = (url, [.resolveRedirect url]) := by
      unfold urlAfterRedirect
      rw [if_pos hvm]
      unfold resolve_shortened_url
      rw [h]
    unfold download_video
    rw [if_pos hv, hafter]
    rfl

/-- C7 witness: the statement evaluated at a shortened URL and a world
whose redirect resolution raises. -/
theorem C7_witness :
    (resolve_shortened_url wRedirectRaises ("https://vm.tiktok.com/abc")).1 =
      ("https://vm.tiktok.com/abc") ∧
    download_video wRedirectRaises ("https://vm.tiktok.com/abc") =
      ((finishDownload wRedirectRaises ("https://vm.tiktok.com/abc")).1,
        .resolveRedirect ("https://vm.tiktok.com/abc") ::
          (finishDownload wRedirectRaises ("https://vm.tiktok.com/abc")).2) :=
  ⟨(C7_redirect_failure_uses_original wRedirectRaises ("https://vm.tiktok.com/abc")
      .connectionError rfl).1,
   (C7_redirect_failure_uses_original wRedirectRaises ("https://vm.tiktok.com/abc")
      .connectionError rfl).2 (by decide) (by decide)⟩

/- ===== C9 ===== -/

/-- C9: every successful endpoint response has download_url identical to
video_url and an absent audio_url. -/
theorem C9_response_invariant (w : World) (url : String) (resp : DownloadResponse)
    (h : (download_video w url).1 = .success resp) :
    resp.download_url = resp.video_url ∧ resp.audio_url = none := by
  unfold download_video at h
  split at h
  · simp only [] at h
    unfold finishDownload at h
    split at h
    next t heq => simp at h
    next vd t heq =>
      simp at h
      have hvd : vd.download_url = vd.video_url :=
        extract_keeps_urls_equal _ _ vd (by rw [heq])
      subst h
      exact ⟨hvd, rfl⟩
  · simp at h

/-- C9 witness: the invariant evaluated on the concrete successful
fallback response. -/
theorem C9_witness :
    (toDownloadResponse ⟨.str (fallbackUrl ("42")), .str ("TikTok User"),
        .str ("TikTok Video"), .str (""), 30, .str (fallbackUrl ("42"))⟩).download_url =
      (toDownloadResponse ⟨.str (fallbackUrl ("42")), .str ("TikTok User"),
        .str ("TikTok Video"), .str (""), 30, .str (fallbackUrl ("42"))⟩).video_url ∧
    (toDownloadResponse ⟨.str (fallbackUrl ("42")), .str ("TikTok User"),
        .str ("TikTok Video"), .str (""), 30, .str (fallbackUrl ("42"))⟩).audio_url = none :=
  C9_response_invariant wFallback ("https://www.tiktok.com/@u/video/42") _ rfl

/- ===== C5 ===== -/

/-- C5: for a valid URL whose post-redirect form has no /video/ digits
segment, the endpoint answers the 404 video-not-found error and the call
trace contains no watermark-free resolver call. -/
theorem C5_no_video_id_404 (w : World) (url u1 : String)
    (hv : validTikTokUrl url = true)
    (hu1 : (urlAfterRedirect w url).1 = u1)
    (hid : videoIdOf u1 = none) :
    (download_video w url).1 =
      .httpError 404 ("video_not_found") ("Video not found or is private") ∧
    ((download_video w url).2.all (fun c => !c.isResolverCall)) = true := by
  have hex : extract_video_data_real w u1 = (none, [.fetchPage u1]) := by
    unfold extract_video_data_real
    cases hpf : w.pageFetch with
    | error e => rfl
    | ok page =>
      by_cases hst : statusOk page.status = true
      · simp [hst, hid]
      · simp [hst]
  have hdl : download_video w url =
      (.httpError 404 ("video_not_found") ("Video not found or is private"),
        (urlAfterRedirect w url).2 ++ [.fetchPage u1]) := by
    unfold download_video
    rw [if_pos hv, hu1]
    unfold finishDownload
    rw [hex]
  have htr : (urlAfterRedirect w url).2 = [] ∨
      (urlAfterRedirect w url).2 = [.resolveRedirect url] := by
    unfold urlAfterRedirect
    by_cases hc : containsSub (("vm.tiktok.com").toList) url.toList = true
    · rw [if_pos hc]
      exact Or.inr (resolve_trace w url)
    · rw [if_neg hc]
      exact Or.inl rfl
  constructor
  · rw [hdl]
  · rw [hdl]
    rcases htr with htr | htr <;> rw [htr] <;> rfl

/-- C5 witness: a shortened URL resolving to a page without a /video/
segment yields the 404 and a resolver-free trace. -/
theorem C5_witness :
    (download_video wPhotoRedirect ("https://vm.tiktok.com/abc")).1 =
      .httpError 404 ("video_not_found") ("Video not found or is private") ∧
    ((download_video wPhotoRedirect ("https://vm.tiktok.com/abc")).2.all
      (fun c => !c.isResolverCall)) = true :=
  C5_no_video_id_404 wPhotoRedirect ("https://vm.tiktok.com/abc")
    ("https://www.tiktok.com/@u/photo/9") (by decide) rfl (by decide)

/- ===== C10 ===== -/

/-- C10: a selected VideoObject whose thumbnail field is the empty list
makes the metadata step raise an IndexError, which the outer handler of
extract_video_data_real converts to no result, so the endpoint answers
404 instead of defaulting the cover. -/
theorem C10_empty_thumbnail_404 (w : World) (url u1 vid : String) (page : Page)
    (kvs : List (String × Json)) (av : Json)
    (hv : validTikTokUrl url = true)
    (hu1 : (urlAfterRedirect w url).1 = u1)
    (hpf : w.pageFetch = .ok page)
    (hst : statusOk page.status = true)
    (hid : videoIdOf u1 = some vid)
    (hld : findVideoObject page.ldJsonScripts = some (.obj kvs))
    (hth : lookupKey kvs ("thumbnailUrl") = some (.arr []))
    (hau : extractAuthorPair (.obj kvs) = .ok av) :
    extract_video_data_real w u1 = (none, [.fetchPage u1]) ∧
    (download_video w url).1 =
      .httpError 404 ("video_not_found") ("Video not found or is private") := by
  have hcov : coverOf (.obj kvs) = .error .indexError := by
    simp [coverOf, pyDictGetD, hth]
  have hmeta : extractMetadata (findVideoObject page.ldJsonScripts) =
      .error .indexError := by
    rw [hld]
    simp [extractMetadata, pyDictGetD, hau, hcov]
  have hex : extract_video_data_real w u1 = (none, [.fetchPage u1]) := by
    simp [extract_video_data_real, hpf, hst, hid, hmeta]
  refine ⟨hex, ?_⟩
  unfold download_video
  rw [if_pos hv, hu1]
  unfold finishDownload
  rw [hex]

/-- C10 witness: the concrete VideoObject with an empty thumbnail list
yields no extraction result and a 404. -/
theorem C10_witness :
    extract_video_data_real wEmptyThumb ("https://www.tiktok.com/@u/video/7") =
      (none, [.fetchPage ("https://www.tiktok.com/@u/video/7")]) ∧
    (download_video wEmptyThumb ("https://www.tiktok.com/@u/video/7")).1 =
      .httpError 404 ("video_not_found") ("Video not found or is private") :=
  C10_empty_thumbnail_404 wEmptyThumb ("https://www.tiktok.com/@u/video/7")
    ("https://www.tiktok.com/@u/video/7") ("7") ⟨200, [some (.obj kvsEmptyThumb)]⟩
    kvsEmptyThumb (.str ("TikTok User"))
    (by decide) rfl rfl (by decide) (by decide) rfl rfl rfl

/- ===== C2 ===== -/

/-- C2: when the request reaches the watermark-free resolver and both
strategies end without a URL and without raising, the endpoint answers a
200 whose video_url and download_url are the fixed CDN template with the
extracted id substituted; this branch is a success, not a 404. -/
theorem C2_strategies_fail_fallback_success (w : World) (url u1 vid : String)
    (page : Page) (meta : Metadata) (sr : SsstikResp) (tr : TikmateResp)
    (hv : validTikTokUrl url = true)
    (hu1 : (urlAfterRedirect w url).1 = u1)
    (hpf : w.pageFetch = .ok page)
    (hst : statusOk page.status = true)
    (hid : videoIdOf u1 = some vid)
    (hm : extractMetadata (findVideoObject page.ldJsonScripts) = .ok meta)
    (hs : w.ssstik = .ok sr) (hs2 : ssstikYieldsNothing sr)
    (ht : w.tikmate = .ok tr) (ht2 : tikmateYieldsNothing tr) :
    (download_video w url).1 =
      .success (toDownloadResponse ⟨.str (fallbackUrl vid), meta.author, meta.title,
        meta.cover, meta.duration, .str (fallbackUrl vid)⟩) := by
  have htik : tikmateStep w u1 vid =
      (some (.str (fallbackUrl vid)), [.ssstikPost u1, .tikmateLookup u1]) := by
    rcases ht2 with h2 | ⟨d, hd, hmem⟩
    · simp [tikmateStep, ht, h2]
    · by_cases h200 : tr.status = 200
      · simp [tikmateStep, ht, h200, hd, hmem]
      · simp [tikmateStep, ht, h200]
  have hres : get_no_watermark_url w u1 vid =
      (some (.str (fallbackUrl vid)), [.ssstikPost u1, .tikmateLookup u1]) := by
    rcases hs2 with h1 | hanch
    · simp [get_no_watermark_url, hs, h1, htik]
    · by_cases h200 : sr.status = 200
      · simp [get_no_watermark_url, hs, h200, hanch, htik]
      · simp [get_no_watermark_url, hs, h200, htik]
  have hex : extract_video_data_real w u1 =
      (some ⟨.str (fallbackUrl vid), meta.author, meta.title, meta.cover, meta.duration,
        .str (fallbackUrl vid)⟩,
       .fetchPage u1 :: [.ssstikPost u1, .tikmateLookup u1]) := by
    simp [extract_video_data_real, hpf, hst, hid, hm, hres]
  unfold download_video
  rw [if_pos hv, hu1]
  unfold finishDownload
  rw [hex]

/-- C2 witness: with a reachable page, no structured data, and both
strategies answering non-200, the endpoint returns the synthesized
fallback URL as a success. -/
theorem C2_witness :
    (download_video wFallback ("https://www.tiktok.com/@u/video/42")).1 =
      .success (toDownloadResponse ⟨.str (fallbackUrl ("42")), defaultMetadata.author,
        defaultMetadata.title, defaultMetadata.cover, defaultMetadata.duration,
        .str (fallbackUrl ("42"))⟩) :=
  C2_strategies_fail_fallback_success wFallback ("https://www.tiktok.com/@u/video/42")
    ("https://www.tiktok.com/@u/video/42") ("42") ⟨200, []⟩ defaultMetadata
    ⟨500, []⟩ ⟨500, none⟩
    (by decide) rfl rfl (by decide) (by decide) rfl rfl (Or.inl (by decide)) rfl
    (Or.inl (by decide))

/- ===== C8 ===== -/

/-- C8: when the ssstik call answers 200 and the first anchor whose
lowered text contains the watermark-free phrase has an href, the
resolver returns that href and the endpoint response carries it as both
video_url and download_url. -/
theorem C8_ssstik_anchor_end_to_end (w : World) (url u1 vid hrefv : String)
    (page : Page) (meta : Metadata) (sr : SsstikResp) (a : Anchor)
    (hv : validTikTokUrl url = true)
    (hu1 : (urlAfterRedirect w url).1 = u1)
    (hpf : w.pageFetch = .ok page)
    (hst : statusOk page.status = true)
    (hid : videoIdOf u1 = some vid)
    (hm : extractMetadata (findVideoObject page.ldJsonScripts) = .ok meta)
    (hs : w.ssstik = .ok sr) (h200 : sr.status = 200)
    (ha : firstWatermarkAnchor sr.anchors = some a) (hh : a.href = some hrefv) :
    get_no_watermark_url w u1 vid = (some (.str hrefv), [.ssstikPost u1]) ∧
    (download_video w url).1 =
      .success (toDownloadResponse ⟨.str hrefv, meta.author, meta.title, meta.cover,
        meta.duration, .str hrefv⟩) := by
  have hres : get_no_watermark_url w u1 vid = (some (.str hrefv), [.ssstikPost u1]) := by
    simp [get_no_watermark_url, hs, h200, ha, hh]
  have hex : extract_video_data_real w u1 =
      (some ⟨.str hrefv, meta.author, meta.title, meta.cover, meta.duration, .str hrefv⟩,
       .fetchPage u1 :: [.ssstikPost u1]) := by
    simp [extract_video_data_real, hpf, hst, hid, hm, hres]
  refine ⟨hres, ?_⟩
  unfold download_video
  rw [if_pos hv, hu1]
  unfold finishDownload
  rw [hex]

/-- C8 witness: a concrete 200 ssstik response with one matching anchor
flows end to end into the response. -/
theorem C8_witness :
    get_no_watermark_url wSsstikAnchor ("https://www.tiktok.com/@u/video/5") ("5") =
      (some (.str ("https://cdn.example/clean.mp4")),
        [.ssstikPost ("https://www.tiktok.com/@u/video/5")]) ∧
    (download_video wSsstikAnchor ("https://www.tiktok.com/@u/video/5")).1 =
      .success (toDownloadResponse ⟨.str ("https://cdn.example/clean.mp4"),
        defaultMetadata.author, defaultMetadata.title, defaultMetadata.cover,
        defaultMetadata.duration, .str ("https://cdn.example/clean.mp4")⟩) :=
  C8_ssstik_anchor_end_to_end wSsstikAnchor ("https://www.tiktok.com/@u/video/5")
    ("https://www.tiktok.com/@u/video/5") ("5") ("https://cdn.example/clean.mp4")
    ⟨200, []⟩ defaultMetadata
    ⟨200, [⟨("Without Watermark HD"), some ("https://cdn.example/clean.mp4")⟩]⟩
    ⟨("Without Watermark HD"), some ("https://cdn.example/clean.mp4")⟩
    (by decide) rfl rfl (by decide) (by decide) rfl rfl rfl rfl rfl

/- ===== C3 ===== -/

theorem dropPref_append {p : List Char} (t : List Char) :
    ∀ {l r : List Char}, dropPref p l = some r → dropPref p (l ++ t) = some (r ++ t) := by
  induction p with
  | nil =>
    intro l r h
    simp [dropPref] at h
    subst h
    simp [dropPref]
  | cons p ps ih =>
    intro l r h
    cases l with
    | nil => simp [dropPref] at h
    | cons c cs =>
      simp only [dropPref] at h
      simp only [List.cons_append, dropPref]
      by_cases hpc : p = c
      · rw [if_pos hpc] at h ⊢
        exact ih h
      · rw [if_neg hpc] at h
        simp at h

theorem videoPart_append (t : List Char) {l : List Char} (h : videoPart l = true) :
    videoPart (l ++ t) = true := by
  unfold videoPart at h ⊢
  cases hd : dropPref (("/video/").toList) l with
  | none =>
    rw [hd] at h
    simp at h
  | some rest =>
    rw [hd] at h
    cases rest with
    | nil => simp at h
    | cons c cs =>
      rw [dropPref_append t hd]
      simpa using h

theorem handleRest_append (t : List Char) :
    ∀ {l : List Char}, handleRest l = true → handleRest (l ++ t) = true := by
  intro l
  induction l with
  | nil =>
    intro h
    simp [handleRest] at h
  | cons c cs ih =>
    intro h
    simp only [handleRest] at h
    simp only [List.cons_append, handleRest]
    by_cases hw : isWordDotDash c = true
    · rw [if_pos hw] at h ⊢
      exact ih h
    · rw [if_neg hw] at h ⊢
      exact videoPart_append t h

theorem matchHandleVideo_append (t : List Char) {l : List Char}
    (h : matchHandleVideo l = true) : matchHandleVideo (l ++ t) = true := by
  cases l with
  | nil => simp [matchHandleVideo] at h
  | cons c cs =>
    simp only [matchHandleVideo, Bool.and_eq_true] at h
    simp only [List.cons_append, matchHandleVideo, Bool.and_eq_true]
    exact ⟨h.1, handleRest_append t h.2⟩

theorem matchAlt1_append (t : List Char) {l : List Char} (h : matchAlt1 l = true) :
    matchAlt1 (l ++ t) = true := by
  unfold matchAlt1 at h ⊢
  cases hd : dropPref (("vm.tiktok.com/").toList) l with
  | none =>
    rw [hd] at h
    simp at h
  | some rest =>
    rw [hd] at h
    cases rest with
    | nil => simp at h
    | cons c cs =>
      rw [dropPref_append t hd]
      simpa using h

theorem matchAlt2_append (t : List Char) {l : List Char} (h : matchAlt2 l = true) :
    matchAlt2 (l ++ t) = true := by
  unfold matchAlt2 at h ⊢
  rw [Bool.or_eq_true] at h ⊢
  rcases h with h | h
  · refine Or.inl ?_
    cases hd : dropPref (("www.tiktok.com/@").toList) l with
    | none =>
      rw [hd] at h
      simp at h
    | some r =>
      rw [hd] at h
      rw [dropPref_append t hd]
      exact matchHandleVideo_append t h
  · refine Or.inr ?_
    cases hd : dropPref (("tiktok.com/@").toList) l with
    | none =>
      rw [hd] at h
      simp at h
    | some r =>
      rw [hd] at h
      rw [dropPref_append t hd]
      exact matchHandleVideo_append t h

theorem validTikTokUrl_append (url t : String) (h : validTikTokUrl url = true) :
    validTikTokUrl (url ++ t) = true := by
  unfold validTikTokUrl at h ⊢
  have hlist : (url ++ t).toList = url.toList ++ t.toList := rfl
  rw [hlist]
  rw [Bool.or_eq_true] at h ⊢
  rcases h with h | h
  · refine Or.inl ?_
    cases hd : dropPref (("https://").toList) url.toList with
    | none =>
      rw [hd] at h
      simp at h
    | some r =>
      rw [hd] at h
      rw [dropPref_append (t.toList) hd]
      have h2 : (matchAlt1 r || matchAlt2 r) = true := h
      show (matchAlt1 (r ++ t.toList) || matchAlt2 (r ++ t.toList)) = true
      rw [Bool.or_eq_true] at h2 ⊢
      rcases h2 with h2 | h2
      · exact Or.inl (matchAlt1_append _ h2)
      · exact Or.inr (matchAlt2_append _ h2)
  · refine Or.inr ?_
    cases hd : dropPref (("http://").toList) url.toList with
    | none =>
      rw [hd] at h
      simp at h
    | some r =>
      rw [hd] at h
      rw [dropPref_append (t.toList) hd]
      have h2 : (matchAlt1 r || matchAlt2 r) = true := h
      show (matchAlt1 (r ++ t.toList) || matchAlt2 (r ++ t.toList)) = true
      rw [Bool.or_eq_true] at h2 ⊢
      rcases h2 with h2 | h2
      · exact Or.inl (matchAlt1_append _ h2)
      · exact Or.inr (matchAlt2_append _ h2)

/-- C3 counterexample: a string matching neither accepted shape in full
(the numeric id is followed by trailing letters) is nevertheless
accepted by the endpoint, which performs an outbound page fetch for it
and answers 404, not the claimed 400 rejection. -/
theorem C3_counterexample :
    specShapeMatch ("https://www.tiktok.com/@user/video/123notdigits") = false ∧
    validTikTokUrl ("https://www.tiktok.com/@user/video/123notdigits") = true ∧
    (download_video wNoNet ("https://www.tiktok.com/@user/video/123notdigits")).1 =
      .httpError 404 ("video_not_found") ("Video not found or is private") ∧
    (download_video wNoNet ("https://www.tiktok.com/@user/video/123notdigits")).2 =
      [.fetchPage ("https://www.tiktok.com/@user/video/123notdigits")] :=
  ⟨by decide, by decide, rfl, rfl⟩

/-- C3 amended: the endpoint rejects with 400 and performs no outbound
call exactly when no prefix of the input matches either accepted shape
(the source regex is anchored at the start only); accepted inputs are
never answered with the 400 invalid-url error, and acceptance is closed
under appending trailing characters. -/
theorem C3_prefix_validation (w : World) (url : String) :
    (validTikTokUrl url = false →
      download_video w url =
        (.httpError 400 ("invalid_url") ("Invalid TikTok URL format"), [])) ∧
    (validTikTokUrl url = true →
      (download_video w url).1 ≠
        .httpError 400 ("invalid_url") ("Invalid TikTok URL format")) ∧
    (validTikTokUrl url = true → ∀ s : String, validTikTokUrl (url ++ s) = true) := by
  refine ⟨?_, ?_, ?_⟩
  · intro hv
    simp [download_video, hv]
  · intro hv
    unfold download_video
    rw [if_pos hv]
    exact finish_not_400 w _ _ _
  · intro hv s
    exact validTikTokUrl_append url s hv

/-- C3 witness: the amended statement evaluated at a rejected string and
at an accepted prefix extended with trailing garbage. -/
theorem C3_witness :
    download_video wNoNet ("notaurl") =
      (.httpError 400 ("invalid_url") ("Invalid TikTok URL format"), []) ∧
    validTikTokUrl (("https://vm.tiktok.com/abc") ++ ("!!!")) = true :=
  ⟨(C3_prefix_validation wNoNet ("notaurl")).1 (by decide),
   (C3_prefix_validation wNoNet ("https://vm.tiktok.com/abc")).2.2 (by decide) ("!!!")⟩

/- ===== C4 ===== -/

theorem containsSub_of_mem {c : Char} {l : List Char} (h : c ∈ l) :
    containsSub [c] l = true := by
  induction h with
  | head as => simp [containsSub, dropPref]
  | tail b hm ih => simp [containsSub, ih]

theorem containsSub_not_mem {c : Char} : ∀ {l : List Char}, c ∉ l → containsSub [c] l = false
  | [], _ => rfl
  | x :: xs, h => by
    have hx : ¬ (c = x) := fun he => h (by rw [he]; exact List.mem_cons_self x xs)
    have h2 : c ∉ xs := fun hm => h (List.mem_cons_of_mem x hm)
    have ih := containsSub_not_mem h2
    simp [containsSub, dropPref, hx, ih]

theorem splitCh_not_mem {c : Char} : ∀ {l : List Char}, c ∉ l → splitCh c l = [l]
  | [], _ => rfl
  | x :: xs, h => by
    have hx : ¬ (x = c) := fun he => h (by rw [← he]; exact List.mem_cons_self x xs)
    have h2 : c ∉ xs := fun hm => h (List.mem_cons_of_mem x hm)
    have ih := splitCh_not_mem h2
    simp [splitCh, hx, ih]

theorem splitCh_append {c : Char} : ∀ {l : List Char} (r : List Char), c ∉ l →
    splitCh c (l ++ c :: r) = l :: splitCh c r
  | [], r, _ => by simp [splitCh]
  | x :: xs, r, h => by
    have hx : ¬ (x = c) := fun he => h (by rw [← he]; exact List.mem_cons_self x xs)
    have h2 : c ∉ xs := fun hm => h (List.mem_cons_of_mem x hm)
    have ih := splitCh_append (c := c) r h2
    simp [splitCh, hx, ih]

theorem replacePT_no_p : ∀ (l : List Char), 'P' ∉ l → replacePT l = l
  | [], _ => rfl
  | [_], _ => rfl
  | c1 :: c2 :: rest, h => by
    have h1 : ¬ (c1 = 'P') := fun he => h (by rw [← he]; exact List.mem_cons_self c1 _)
    have h2 : 'P' ∉ c2 :: rest := fun hm => h (List.mem_cons_of_mem c1 hm)
    have hcond : ¬ (c1 = 'P' ∧ c2 = 'T') := fun hc => h1 hc.1
    have ih := replacePT_no_p (c2 :: rest) h2
    simp [replacePT, hcond, ih]

theorem pyIntL_digits {l : List Char} (h1 : l ≠ []) (h2 : l.all Char.isDigit = true) :
    pyIntL l = some ((digitsNat l : Int)) := by
  cases l with
  | nil => exact absurd rfl h1
  | cons c cs =>
    have hc : c.isDigit = true := List.all_eq_true.mp h2 c (List.mem_cons_self c cs)
    have hcm : ¬ (c = '-') := fun he => by
      rw [he] at hc
      exact absurd hc (by decide)
    have hcp : ¬ (c = '+') := fun he => by
      rw [he] at hc
      exact absurd hc (by decide)
    simp [pyIntL, hcm, hcp, unsignedInt, h2]

theorem any_key_of_lookupKey : ∀ {kvs : List (String × Json)} {k : String} {v : Json},
    lookupKey kvs k = some v → (kvs.any (fun p => p.1 == k)) = true
  | [], _, _, h => by simp [lookupKey] at h
  | (k2, v2) :: rest, k, v, h => by
    by_cases hk : k2 = k
    · simp [List.any_cons, hk]
    · have h2 : lookupKey rest k = some v := by
        simpa [lookupKey, hk] using h
      simp [List.any_cons, any_key_of_lookupKey h2]

theorem computeDuration_pt {kvs : List (String × Json)} {body : List Char}
    (hdur : lookupKey kvs ("duration") = some (.str ⟨'P' :: 'T' :: body⟩)) :
    computeDuration (.obj kvs) = parsePT ('P' :: 'T' :: body) := by
  have h1 : pyMemberKey ("duration") (Json.obj kvs) = .ok true := by
    simp [pyMemberKey, any_key_of_lookupKey hdur]
  have h2 : pyIndexKey ("duration") (Json.obj kvs) = .ok (.str ⟨'P' :: 'T' :: body⟩) := by
    simp [pyIndexKey, hdur]
  have h3 : pyMemberKey ("PT") (Json.str ⟨'P' :: 'T' :: body⟩) = .ok true := by
    simp [pyMemberKey, String.toList, containsSub, dropPref]
  simp only [computeDuration, h1, h2, h3]
  rfl

theorem parsePT_M_S (ms ss : List Char) (hm1 : ms ≠ []) (hm2 : ms.all Char.isDigit = true)
    (hs1 : ss ≠ []) (hs2 : ss.all Char.isDigit = true) :
    parsePT ('P' :: 'T' :: (ms ++ 'M' :: (ss ++ ['S']))) =
      .ok ((digitsNat ms : Int) * 60 + (digitsNat ss : Int)) := by
  have hnoP : 'P' ∉ ms ++ 'M' :: (ss ++ ['S']) := by
    intro hmem
    rcases List.mem_append.mp hmem with hin | hin
    · exact absurd (List.all_eq_true.mp hm2 _ hin) (by decide)
    · rcases List.mem_cons.mp hin with he | hin2
      · exact absurd he (by decide)
      · rcases List.mem_append.mp hin2 with hin3 | hin3
        · exact absurd (List.all_eq_true.mp hs2 _ hin3) (by decide)
        · simp at hin3
  have hMnotms : 'M' ∉ ms := fun hmem =>
    absurd (List.all_eq_true.mp hm2 _ hmem) (by decide)
  have hSnotss : 'S' ∉ ss := fun hmem =>
    absurd (List.all_eq_true.mp hs2 _ hmem) (by decide)
  have hMnotrest : 'M' ∉ ss ++ ['S'] := by
    intro hmem
    rcases List.mem_append.mp hmem with hin | hin
    · exact absurd (List.all_eq_true.mp hs2 _ hin) (by decide)
    · simp at hin
  have hrep : replacePT ('P' :: 'T' :: (ms ++ 'M' :: (ss ++ ['S']))) =
      ms ++ 'M' :: (ss ++ ['S']) := by
    have hstep : replacePT ('P' :: 'T' :: (ms ++ 'M' :: (ss ++ ['S']))) =
        replacePT (ms ++ 'M' :: (ss ++ ['S'])) := by
      simp [replacePT]
    rw [hstep, replacePT_no_p _ hnoP]
  have hM : containsSub ['M'] (ms ++ 'M' :: (ss ++ ['S'])) = true :=
    containsSub_of_mem (List.mem_append.mpr (Or.inr (List.mem_cons_self _ _)))
  have hsplit : splitCh 'M' (ms ++ 'M' :: (ss ++ ['S'])) = [ms, ss ++ ['S']] := by
    rw [splitCh_append _ hMnotms, splitCh_not_mem hMnotrest]
  have hS : containsSub ['S'] (ss ++ ['S']) = true :=
    containsSub_of_mem (List.mem_append.mpr (Or.inr (List.mem_cons_self _ _)))
  have hsplitS : splitCh 'S' (ss ++ ['S']) = [ss, []] := by
    rw [show ss ++ ['S'] = ss ++ 'S' :: [] from rfl, splitCh_append _ hSnotss]
    rfl
  simp [parsePT, hrep, hM, hsplit, pyIntL_digits hm1 hm2, secondsPart, hS, hsplitS,
    pyIntL_digits hs1 hs2]

theorem parsePT_S (ss : List Char) (hs1 : ss ≠ []) (hs2 : ss.all Char.isDigit = true) :
    parsePT ('P' :: 'T' :: (ss ++ ['S'])) = .ok ((digitsNat ss : Int)) := by
  have hnoP : 'P' ∉ ss ++ ['S'] := by
    intro hmem
    rcases List.mem_append.mp hmem with hin | hin
    · exact absurd (List.all_eq_true.mp hs2 _ hin) (by decide)
    · simp at hin
  have hSnotss : 'S' ∉ ss := fun hmem =>
    absurd (List.all_eq_true.mp hs2 _ hmem) (by decide)
  have hMnot : 'M' ∉ ss ++ ['S'] := by
    intro hmem
    rcases List.mem_append.mp hmem with hin | hin
    · exact absurd (List.all_eq_true.mp hs2 _ hin) (by decide)
    · simp at hin
  have hrep : replacePT ('P' :: 'T' :: (ss ++ ['S'])) = ss ++ ['S'] := by
    have hstep : replacePT ('P' :: 'T' :: (ss ++ ['S'])) = replacePT (ss ++ ['S']) := by
      simp [replacePT]
    rw [hstep, replacePT_no_p _ hnoP]
  have hM : containsSub ['M'] (ss ++ ['S']) = false := containsSub_not_mem hMnot
  have hS : containsSub ['S'] (ss ++ ['S']) = true :=
    containsSub_of_mem (List.mem_append.mpr (Or.inr (List.mem_cons_self _ _)))
  have hsplitS : splitCh 'S' (ss ++ ['S']) = [ss, []] := by
    rw [show ss ++ ['S'] = ss ++ 'S' :: [] from rfl, splitCh_append _ hSnotss]
    rfl
  simp [parsePT, hrep, hM, secondsPart, hS, hsplitS, pyIntL_digits hs1 hs2]

theorem parsePT_M (ms : List Char) (hm1 : ms ≠ []) (hm2 : ms.all Char.isDigit = true) :
    parsePT ('P' :: 'T' :: (ms ++ ['M'])) = .ok ((digitsNat ms : Int) * 60) := by
  have hnoP : 'P' ∉ ms ++ ['M'] := by
    intro hmem
    rcases List.mem_append.mp hmem with hin | hin
    · exact absurd (List.all_eq_true.mp hm2 _ hin) (by decide)
    · simp at hin
  have hMnotms : 'M' ∉ ms := fun hmem =>
    absurd (List.all_eq_true.mp hm2 _ hmem) (by decide)
  have hrep : replacePT ('P' :: 'T' :: (ms ++ ['M'])) = ms ++ ['M'] := by
    have hstep : replacePT ('P' :: 'T' :: (ms ++ ['M'])) = replacePT (ms ++ ['M']) := by
      simp [replacePT]
    rw [hstep, replacePT_no_p _ hnoP]
  have hM : containsSub ['M'] (ms ++ ['M']) = true :=
    containsSub_of_mem (List.mem_append.mpr (Or.inr (List.mem_cons_self _ _)))
  have hsplit : splitCh 'M' (ms ++ ['M']) = [ms, []] := by
    rw [show ms ++ ['M'] = ms ++ 'M' :: [] from rfl, splitCh_append _ hMnotms]
    rfl
  simp [parsePT, hrep, hM, hsplit, pyIntL_digits hm1 hm2, secondsPart,
    show containsSub ['S'] ([] : List Char) = false from rfl]

/-- C4: for a selected VideoObject whose duration value is a PT string
with numeric segments, the computed duration is the minutes segment
(before the M, zero when absent) times 60 plus the seconds segment
(before the S of the remainder, zero when absent). -/
theorem C4_duration_formula :
    (∀ (kvs : List (String × Json)) (ms ss : List Char),
      ms ≠ [] → ms.all Char.isDigit = true → ss ≠ [] → ss.all Char.isDigit = true →
      lookupKey kvs ("duration") = some (.str ⟨'P' :: 'T' :: (ms ++ 'M' :: (ss ++ ['S']))⟩) →
      computeDuration (.obj kvs) = .ok ((digitsNat ms : Int) * 60 + (digitsNat ss : Int))) ∧
    (∀ (kvs : List (String × Json)) (ss : List Char),
      ss ≠ [] → ss.all Char.isDigit = true →
      lookupKey kvs ("duration") = some (.str ⟨'P' :: 'T' :: (ss ++ ['S'])⟩) →
      computeDuration (.obj kvs) = .ok ((digitsNat ss : Int))) ∧
    (∀ (kvs : List (String × Json)) (ms : List Char),
      ms ≠ [] → ms.all Char.isDigit = true →
      lookupKey kvs ("duration") = some (.str ⟨'P' :: 'T' :: (ms ++ ['M'])⟩) →
      computeDuration (.obj kvs) = .ok ((digitsNat ms : Int) * 60)) := by
  refine ⟨?_, ?_, ?_⟩
  · intro kvs ms ss hm1 hm2 hs1 hs2 hdur
    rw [computeDuration_pt hdur, parsePT_M_S ms ss hm1 hm2 hs1 hs2]
  · intro kvs ss hs1 hs2 hdur
    rw [computeDuration_pt hdur, parsePT_S ss hs1 hs2]
  · intro kvs ms hm1 hm2 hdur
    rw [computeDuration_pt hdur, parsePT_M ms hm1 hm2]

/-- C4 witness: the spec's two test vectors, PT1M30S computing 90 and
PT45S computing 45. -/
theorem C4_witness :
    computeDuration (.obj [(("@type"), .str ("VideoObject")),
        (("duration"), .str ⟨['P', 'T', '1', 'M', '3', '0', 'S']⟩)]) = .ok 90 ∧
    computeDuration (.obj [(("@type"), .str ("VideoObject")),
        (("duration"), .str ⟨['P', 'T', '4', '5', 'S']⟩)]) = .ok 45 := by
  constructor
  · have h := C4_duration_formula.1 [(("@type"), .str ("VideoObject")),
        (("duration"), .str ⟨['P', 'T', '1', 'M', '3', '0', 'S']⟩)] ['1'] ['3', '0']
        (by decide) (by decide) (by decide) (by decide) rfl
    rw [show ((digitsNat ['1'] : Int) * 60 + (digitsNat ['3', '0'] : Int)) = 90 from by decide] at h
    exact h
  · have h := C4_duration_formula.2.1 [(("@type"), .str ("VideoObject")),
        (("duration"), .str ⟨['P', 'T', '4', '5', 'S']⟩)] ['4', '5']
        (by decide) (by decide) rfl
    rw [show ((digitsNat ['4', '5'] : Int)) = 45 from by decide] at h
    exact h
